import Mathlib

/-!
Shallow embedding of the NetSurf Gopher-to-HTML transcoder
(`src/content/gopher.c` of the mmuman/NetSurf tree) and verification of the
specification claims about it.

Byte strings are modelled as `List Char` (the wire format is 8-bit clean; a
`Char` holds every byte value).  C strings passed around by the transcoder
never contain interior NUL bytes when they come from the line parser (the
parser stops scanning at NUL), and the embedding makes the NUL-termination
conventions explicit wherever the C code relies on them.
-/

set_option maxHeartbeats 1000000

/-- Models the bounds check made after every `snprintf(buffer, buffer_length, ...)`
call in gopher.c: `snprintf` returns the length the fully formatted string
would have; the code treats `error < 0 || error >= buffer_length` as failure
and otherwise uses the buffer contents.  `some out` is the successfully
formatted string, `none` is the failure case. -/
def snpr (buffer_length : Nat) (out : List Char) : Option (List Char) :=
  if out.length < buffer_length then some out else none

/-- Models how glibc's `printf`/`snprintf` renders a `%s` argument that is a
NULL pointer (the code does pass NULL field pointers for fields missing from
a short menu line). -/
def cstr (s : Option (List Char)) : List Char :=
  match s with
  | none => "(null)".toList
  | some l => l

/-- `html_escape_string` from gopher.c: escape `<`, `>`, `&` as HTML entities.
The C loop runs while `*tmp != '\0'`, hence the explicit NUL cutoff. -/
def html_escape_string : List Char → List Char
  | [] => []
  | c :: t =>
    if c = '\x00' then []
    else if c = '<' then "&lt;".toList ++ html_escape_string t
    else if c = '>' then "&gt;".toList ++ html_escape_string t
    else if c = '&' then "&amp;".toList ++ html_escape_string t
    else c :: html_escape_string t

/-- Lifts `html_escape_string` to a possibly-NULL argument: on NULL the C
function returns NULL. -/
def html_escape_opt : Option (List Char) → Option (List Char)
  | none => none
  | some s => some (html_escape_string s)

/-- The five fields of a gopher menu line (`FIELD_NAME` .. `FIELD_GPFLAG`);
`none` models a NULL entry of the C `fields[FIELD_COUNT]` array. -/
structure RowFields where
  name : Option (List Char)
  selector : Option (List Char)
  host : Option (List Char)
  port : Option (List Char)
  gpflag : Option (List Char)
deriving DecidableEq

/-- `fields[field] = v` for the field index used by the parser (0..4). -/
def setField (f : RowFields) (field : Nat) (v : List Char) : RowFields :=
  match field with
  | 0 => { f with name := some v }
  | 1 => { f with selector := some v }
  | 2 => { f with host := some v }
  | 3 => { f with port := some v }
  | _ => { f with gpflag := some v }

/-- The `alt_port` test of gopher.c:
`fields[FIELD_PORT] && fields[FIELD_PORT][0] && strcmp(fields[FIELD_PORT], dflt)`. -/
def alt_port_test (dflt : List Char) (port : Option (List Char)) : Bool :=
  match port with
  | none => false
  | some p => if p = [] then false else if p = dflt then false else true

/-- The `alt_port ? ":" : ""` / `alt_port ? fields[FIELD_PORT] : ""` pair of
`%s` arguments used in every URL-emitting format string. -/
def port_frag (alt : Bool) (port : Option (List Char)) : List Char :=
  if alt then ':' :: cstr port else []

/-- `strrchr(selector, '/')` followed by `username++`: the suffix of the
selector after its last `/`, if any. -/
def last_slash_suffix : List Char → Option (List Char)
  | [] => none
  | c :: r =>
    match last_slash_suffix r with
    | some u => some u
    | none => if c = '/' then some r else none

/-- `username ? username : ""` and `username ? "@" : ""` of the telnet/tn3270
cases. -/
def user_frag (u : Option (List Char)) : List Char :=
  match u with
  | none => []
  | some l => l ++ "@".toList

/-- The browser option `nsoption_bool(gopher_inline_images)`.  The option
store is part of the surrounding browser, outside this subsystem; it is
modelled as the option being disabled. -/
def nsoption_gopher_inline_images : Bool := false

/-- The `redirect_url` computation of the `GOPHER_TYPE_HTML` case:
`strncmp(sel, "URL:", 4) == 0` yields `sel + 4`, `strncmp(sel, "/URL:", 5) == 0`
yields `sel + 5`. -/
def html_redirect_url (sel : Option (List Char)) : Option (List Char) :=
  match sel with
  | none => none
  | some s =>
    if s.take 4 = "URL:".toList then some (s.drop 4)
    else if s.take 5 = "/URL:".toList then some (s.drop 5)
    else none

/-- The body of `gopher_generate_row_internal`: the big `switch (type)` over
item types, producing the HTML fragment handed to `snprintf`.  `nice_text` is
the already-escaped NAME field (the C code computes it once before the
switch and the switch never reads `fields[FIELD_NAME]` directly).
`GOPHER_TYPE_SOUND` and `GOPHER_TYPE_MOVIE` are both `';'` in gopher.h; the
audio case comes first in the C switch, so `';'` renders as audio here. -/
def gopher_row_body (type : Char) (f : RowFields) (nice_text : Option (List Char))
    (buffer_length : Nat) : Option (List Char) :=
  let alt_port := alt_port_test "70".toList f.port
  let hostp := cstr f.host
  let selp := cstr f.selector
  let nt := cstr nice_text
  match type with
  | '.' =>
    -- GOPHER_TYPE_ENDOFPAGE: `*buffer = '\0'`, `error` stays 0
    snpr buffer_length []
  | '0' =>
    snpr buffer_length
      ("<a href=\"gopher://".toList ++ hostp ++ port_frag alt_port f.port ++
        '/' :: type :: selp ++ "\"><span class=\"text\">".toList ++ nt ++
        "</span></a><br/>\n".toList)
  | '9' | '4' | '5' | '6' =>
    snpr buffer_length
      ("<a href=\"gopher://".toList ++ hostp ++ port_frag alt_port f.port ++
        '/' :: type :: selp ++ "\"><span class=\"binary\">".toList ++ nt ++
        "</span></a><br/>\n".toList)
  | '1' =>
    snpr buffer_length
      ("<a href=\"gopher://".toList ++ hostp ++ port_frag alt_port f.port ++
        '/' :: type :: selp ++ "\"><span class=\"dir\">".toList ++ nt ++
        "</span></a><br/>\n".toList)
  | '3' =>
    snpr buffer_length
      ("<span class=\"error\">".toList ++ nt ++ "</span><br/>\n".toList)
  | '7' =>
    snpr buffer_length
      ("<form method=\"get\" action=\"gopher://".toList ++ hostp ++
        port_frag alt_port f.port ++ '/' :: type :: selp ++
        "\"><span class=\"query\"><label>".toList ++ nt ++
        " <input name=\"\" type=\"text\" align=\"right\" /></label></span></form><br/>\n".toList)
  | '8' =>
    let alt8 := alt_port_test "23".toList f.port
    -- `strrchr(fields[FIELD_SELECTOR], '/')`; a NULL selector would crash in
    -- C, modelled as "no username"
    let username := match f.selector with
      | none => none
      | some s => last_slash_suffix s
    snpr buffer_length
      ("<a href=\"telnet://".toList ++ user_frag username ++ hostp ++
        port_frag alt8 f.port ++ "\"><span class=\"telnet\">".toList ++ nt ++
        "</span></a><br/>\n".toList)
  | 'T' =>
    let altT := alt_port_test "23".toList f.port
    let username := match f.selector with
      | none => none
      | some s => last_slash_suffix s
    snpr buffer_length
      ("<a href=\"tn3270://".toList ++ user_frag username ++ hostp ++
        port_frag altT f.port ++ "\"><span class=\"telnet\">".toList ++ nt ++
        "</span></a><br/>\n".toList)
  | '2' =>
    let alt2 := alt_port_test "105".toList f.port
    snpr buffer_length
      ("<a href=\"cso://".toList ++ hostp ++ port_frag alt2 f.port ++
        "\"><span class=\"cso\">".toList ++ nt ++ "</span></a><br/>\n".toList)
  | 'g' | 'I' | 'p' | ':' =>
    if nsoption_gopher_inline_images then
      snpr buffer_length
        ("<a href=\"gopher://".toList ++ hostp ++ port_frag alt_port f.port ++
          '/' :: type :: selp ++ "\"><span class=\"img\">".toList ++ nt ++
          "<img src=\"gopher://".toList ++ hostp ++ port_frag alt_port f.port ++
          '/' :: type :: selp ++ "\" alt=\"".toList ++ nt ++
          "\"/></span></a><br/>\n".toList)
    else
      snpr buffer_length
        ("<a href=\"gopher://".toList ++ hostp ++ port_frag alt_port f.port ++
          '/' :: type :: selp ++ "\"><span class=\"img\">".toList ++ nt ++
          "</span></a><br/>\n".toList)
  | 'h' =>
    match html_redirect_url f.selector with
    | some r =>
      snpr buffer_length
        ("<a href=\"".toList ++ r ++ "\"><span class=\"html\">".toList ++ nt ++
          "</span></a><br/>\n".toList)
    | none =>
      snpr buffer_length
        ("<a href=\"gopher://".toList ++ hostp ++ port_frag alt_port f.port ++
          '/' :: type :: selp ++ "\"><span class=\"html\">".toList ++ nt ++
          "</span></a><br/>\n".toList)
  | 'i' =>
    -- C: `if ((fields[FIELD_SELECTOR] && strcmp(fields[FIELD_SELECTOR], "TITLE")) == 0)`
    -- note the parenthesisation: the whole conjunction is compared with 0
    let span_case : Bool := match f.selector with
      | none => false
      | some s => if s = "TITLE".toList then false else true
    if span_case then
      snpr buffer_length
        ("<span class=\"info\">".toList ++ nt ++ "</span><br/>\n".toList)
    else
      snpr buffer_length ("<h2>".toList ++ nt ++ "</h2><br/>\n".toList)
  | 's' | ';' =>
    snpr buffer_length
      ("<a href=\"gopher://".toList ++ hostp ++ port_frag alt_port f.port ++
        '/' :: type :: selp ++ "\"><span class=\"audio\">".toList ++ nt ++
        "</span></a><audio src=\"gopher://".toList ++ hostp ++
        port_frag alt_port f.port ++ '/' :: type :: selp ++
        "\" controls=\"controls\"><span>[player]</span></audio><br/>\n".toList)
  | 'P' | 'd' =>
    snpr buffer_length
      ("<a href=\"gopher://".toList ++ hostp ++ port_frag alt_port f.port ++
        '/' :: type :: selp ++ "\"><span class=\"other\">".toList ++ nt ++
        "</span></a><br/>\n".toList)
  -- the GOPHER_TYPE_MOVIE case is dead: its label ';' is already taken by
  -- the sound case above (both enumerators are ';' in gopher.h)
  | _ =>
    snpr buffer_length
      ("<a href=\"gopher://".toList ++ hostp ++ port_frag alt_port f.port ++
        '/' :: type :: selp ++ "\"><span class=\"unknown\">".toList ++ nt ++
        "</span></a><br/>\n".toList)

/-- `gopher_generate_row_internal`: escape the NAME field, then render the
type-specific fragment. -/
def gopher_generate_row_internal (type : Char) (f : RowFields)
    (buffer_length : Nat) : Option (List Char) :=
  gopher_row_body type f (html_escape_opt f.name) buffer_length

/-- Outcome of one `gopher_generate_row` call.
`incomplete`: returned false with `*data` and `*size` untouched.
`renderFail rest`: returned false, but `*data` was advanced to `rest` while
`*size` kept its old value (the `if (ok) *size = sz;` asymmetry).
`ok frag rest`: returned true, `frag` in the buffer, view advanced to `rest`. -/
inductive RowResult where
  | incomplete : RowResult
  | renderFail : List Char → RowResult
  | ok : List Char → List Char → RowResult
deriving DecidableEq

/-- The scanning loop of `gopher_generate_row`.  `type = none` models
`type == 0` (not yet read), `acc` holds the bytes of the current field in
reverse (the C code keeps the `s`..`p` window instead), `field` is the index
of the current field, `f` the completed fields, `r` what remains of the view. -/
def gopher_generate_row_loop (buffer_length : Nat) (type : Option Char)
    (field : Nat) (f : RowFields) (acc : List Char) :
    List Char → RowResult
  | [] => .incomplete
  | c :: rest =>
    if c = '\x00' then
      -- the `for (; sz && *p; ...)` condition: a NUL byte ends the scan
      .incomplete
    else
      match type with
      | none =>
        if c = '\n' ∨ c = '\r' then
          -- invalid type byte: reset and reparse
          gopher_generate_row_loop buffer_length none 0 f acc rest
        else
          gopher_generate_row_loop buffer_length (some c) field f acc rest
      | some t =>
        if c = '\n' ∨ c = '\r' then
          if rest = [] then
            -- `if (sz < 2) continue;` -- the LF should be in the next buffer
            .incomplete
          else
            -- close the final field, render, consume the terminator and
            -- then `if (sz && *p == '\n') p++;`
            match gopher_generate_row_internal t (setField f field acc.reverse)
                buffer_length with
            | some frag =>
              .ok frag (if rest.head? = some '\n' then rest.tail else rest)
            | none =>
              .renderFail (if rest.head? = some '\n' then rest.tail else rest)
        else if c = '\x09' then
          if 4 ≤ field then
            -- extra tab: warning only, the byte stays in the current field
            gopher_generate_row_loop buffer_length (some t) field f (c :: acc) rest
          else
            gopher_generate_row_loop buffer_length (some t) (field + 1)
              (setField f field acc.reverse) [] rest
        else
          gopher_generate_row_loop buffer_length (some t) field f (c :: acc) rest

/-- `gopher_generate_row`: parse and render one menu line from the view. -/
def gopher_generate_row (v : List Char) (buffer_length : Nat) : RowResult :=
  gopher_generate_row_loop buffer_length none 0 ⟨none, none, none, none, none⟩ [] v

example : gopher_generate_row "1Docs\t/docs\texample.org\t70\r\n".toList 4096 =
    .ok ("<a href=\"gopher://example.org/1/docs\"><span class=\"dir\">Docs</span></a><br/>\n".toList)
      [] := by decide

example : gopher_generate_row "0README\t/README\texample.org\t70\r\nx".toList 4096 =
    .ok ("<a href=\"gopher://example.org/0/README\"><span class=\"text\">README</span></a><br/>\n".toList)
      "x".toList := by decide

example : gopher_generate_row ".\r\n".toList 4096 = .ok [] [] := by decide

example : gopher_generate_row "1Docs\t/docs".toList 4096 = .incomplete := by decide

/-- `gopher_need_generate`: true iff the item type is transcoded to HTML. -/
def gopher_need_generate (type : Char) : Bool :=
  match type with
  | '1' => true  -- GOPHER_TYPE_DIRECTORY
  | '7' => true  -- GOPHER_TYPE_QUERY
  | _ => false

/-- The `gopher_type_map` table, including its `{ 0, NULL }` sentinel
(modelled as `('\x00', [])`). -/
def gopher_type_map : List (Char × List Char) :=
  [('0', "text/plain".toList),
   ('1', "text/html;charset=UTF-8".toList),
   ('7', "text/html;charset=UTF-8".toList),
   ('g', "image/gif".toList),
   ('h', "text/html".toList),
   ('d', "application/pdf".toList),
   ('P', "application/pdf".toList),
   ('p', "image/png".toList),
   ('\x00', [])]

/-- The lookup loop of `gopher_type_to_mime`:
`for (i = 0; gopher_type_map[i].type; i++) ...` -- the walk stops at the
sentinel entry whose type is 0. -/
def gopher_type_to_mime_loop : List (Char × List Char) → Char → Option (List Char)
  | [], _ => none
  | (t, m) :: rest, type =>
    if t = '\x00' then none
    else if t = type then some m
    else gopher_type_to_mime_loop rest type

/-- `gopher_type_to_mime`: MIME type for a gopher item type, NULL if unknown. -/
def gopher_type_to_mime (type : Char) : Option (List Char) :=
  gopher_type_to_mime_loop gopher_type_map type

/-- `gopher_generate_top`: the fixed HTML prologue. -/
def gopher_generate_top (buffer_length : Nat) : Option (List Char) :=
  snpr buffer_length
    ("<html>\n<head>\n<meta http-equiv=\"Content-Type\" content=\"text/html; charset=UTF-8\" />\n<link rel=\"stylesheet\" title=\"Standard\" type=\"text/css\" href=\"resource:internal.css\">\n<link rel=\"icon\" type=\"image/png\" href=\"resource:icons/directory.png\">\n".toList)

/-- Modelled from the spec: the external localisation catalog entry
`FileIndex`, the page-title format "Index of PATH" (the catalog itself is
part of the surrounding browser, not of this subsystem). -/
def messages_get_FileIndex_applied (path : List Char) : List Char :=
  "Index of ".toList ++ path

/-- `gen_nice_title`: HTML-escape the URL and apply the `FileIndex` format.
The `snprintf` into the `title_length + 1` buffer writes the full formatted
string (length `9 + n` into a buffer allowing `n + 10` characters), so no
truncation occurs. -/
def gen_nice_title (path : List Char) : List Char :=
  messages_get_FileIndex_applied (html_escape_string path)

/-- `gopher_generate_title`: the `<title>`/`<h1>` block, title used twice. -/
def gopher_generate_title (title : List Char) (buffer_length : Nat) :
    Option (List Char) :=
  snpr buffer_length
    ("<title>".toList ++ title ++
      "</title>\n</head>\n<body id=\"gopher\">\n<div class=\"uplink dontprint\">\n<a href=\"..\">[up]</a>\n<a href=\"/\">[top]</a>\n</div>\n<h1>".toList ++
      title ++ "</h1>\n".toList)

/-- `gopher_generate_bottom`: the fixed HTML epilogue. -/
def gopher_generate_bottom (buffer_length : Nat) : Option (List Char) :=
  snpr buffer_length "</div>\n</body>\n</html>\n".toList

/-- `struct gopher_state` (the parts `gopher_fetch_data` reads and writes):
`type` is the declared item type (`'\x00'` = `GOPHER_TYPE_NONE`), `url` the
string `nsurl_access(s->url)` returns, `head_done` whether the prologue was
sent, `input` the first `cached` bytes of the carry buffer. -/
structure GopherState where
  type : Char
  url : List Char
  head_done : Bool
  cached : Nat
  input : List Char
deriving DecidableEq

/-- The `while (gopher_generate_row(&p, &left, buffer, sizeof(buffer)))` loop
of `gopher_fetch_data` together with the carry copy that follows it, on the
view `v`.  Returns the emitted fragments, the bytes the carry buffer holds
afterwards, and whether a row failed to render.

When a row fails to render, `gopher_generate_row` has advanced `p` past the
line but `left` still counts it, so the `memmove(s->input, p, left)` copy
reads `left - |rest|` bytes beyond the end of the buffer.  Those
out-of-bounds bytes are modelled as NUL bytes; the carry length equals the
(stale) `left` either way.

`fuel` bounds the recursion; every successful row consumes at least one byte,
so `v.length + 1` fuel always suffices (see `gopher_rows_run`). -/
def gopher_rows (buffer_length : Nat) : Nat → List Char →
    List (List Char) × List Char × Bool
  | 0, v => ([], v, false)
  | fuel + 1, v =>
    match gopher_generate_row v buffer_length with
    | .ok frag rest =>
      let r := gopher_rows buffer_length fuel rest
      (frag :: r.1, r.2.1, r.2.2)
    | .incomplete => ([], v, false)
    | .renderFail rest =>
      ([], rest ++ List.replicate (v.length - rest.length) '\x00', true)

/-- `gopher_rows` with always-sufficient fuel. -/
def gopher_rows_run (buffer_length : Nat) (v : List Char) :
    List (List Char) × List Char × Bool :=
  gopher_rows buffer_length (v.length + 1) v

/-- The prologue and title emissions of the `!s->head_done` block of
`gopher_fetch_data` (each emitted only when its `snprintf` succeeded). -/
def gopher_head_emissions (url : List Char) : List (List Char) :=
  (match gopher_generate_top 4096 with
    | some frag => [frag]
    | none => []) ++
  (match gopher_generate_title (gen_nice_title url) 4096 with
    | some frag => [frag]
    | none => [])

/-- `gopher_fetch_data`: handle one chunk.  Returns the DATA emissions (in
order), the new session state, and whether a row failed to render during
this call.  A zero-length chunk is the end-of-stream signal: it emits the
epilogue whenever `s->type && gopher_need_generate(s->type)` and changes no
state.  Otherwise the chunk is appended to the carry (if any), the prologue
and title are emitted on the first data chunk, and complete rows are
rendered and emitted. -/
def gopher_fetch_data (s : GopherState) (data : List Char) :
    List (List Char) × GopherState × Bool :=
  if data.length = 0 then
    (if s.type ≠ '\x00' ∧ gopher_need_generate s.type then
        match gopher_generate_bottom 4096 with
        | some frag => [frag]
        | none => []
      else [], s, false)
  else
    let buf := if s.cached ≠ 0 then s.input ++ data else data
    let pre : List (List Char) :=
      if s.head_done then [] else gopher_head_emissions s.url
    let r := gopher_rows_run 4096 buf
    (pre ++ r.1,
      { s with head_done := true, cached := r.2.1.length, input := r.2.1 },
      r.2.2)

/-- Feed a list of chunks in order, collecting all DATA emissions and
or-ing the render-failure flags. -/
def gopher_feed_all (s : GopherState) : List (List Char) →
    List (List Char) × GopherState × Bool
  | [] => ([], s, false)
  | c :: rest =>
    let r1 := gopher_fetch_data s c
    let r2 := gopher_feed_all r1.2.1 rest
    (r1.1 ++ r2.1, r2.2.1, r1.2.2 || r2.2.2)

/-- `strncmp(a, b, n) == 0` on byte buffers that are long enough for the
walk (the caller's bounds guards ensure this): compare up to `n` bytes,
stopping early at a NUL on both sides or at the first difference. -/
def strncmp0 : List Char → List Char → Nat → Bool
  | _, _, 0 => true
  | [], [], _ + 1 => true
  | x :: a, y :: b, n + 1 =>
    if x = y then (if x = '\x00' then true else strncmp0 a b n) else false
  | _, _, _ + 1 => false

/-- The selector-matching walk of `gopher_get_http_code` on the bytes after
the leading `'3'` (`d1`), against the URL path component (`path?`, `none`
when `nsurl_get_component` returns NULL): skip an optional space, require a
quote, require the path to have length at least 2 and the quoted text to
repeat the path without its first two bytes, require the closing quote. -/
def error3_selector_match (path? : Option (List Char)) (d1 : List Char) : Bool :=
  match d1 with
  | [] => false
  | _ :: _ =>
    let r1 := if d1.head? = some ' ' then d1.tail else d1
    match r1 with
    | [] => false
    | q :: r2 =>
      if q ≠ '\'' then false
      else
        match path? with
        | none => false
        | some path =>
          if path.length < 2 then false
          else if r2.length < path.length then false
          else if ¬ strncmp0 r2 (path.drop 2) (path.length - 2) then false
          else
            match r2.drop (path.length - 2) with
            | [] => false
            | c :: _ => c = '\''

/-- `gopher_get_http_code`: synthesize an HTTP status from the session type,
the URL path component and the first received bytes.  Returns the code and
the (possibly updated) session type. -/
def gopher_get_http_code (type : Char) (path? : Option (List Char))
    (data : List Char) : Nat × Char :=
  if type = '\x00' then (400, type)
  else
    match data with
    | [] => (0, type)
    | d0 :: d1 =>
      if d0 = '3' then
        if gopher_need_generate type then (404, type)
        else if error3_selector_match path? d1 then (404, '1')
        else (200, type)
      else (200, type)

example : gopher_get_http_code '0' (some "/0/missing".toList)
    "3 '/missing' does not exist\terror.host\t1\r\n".toList = (404, '1') := by decide

example : gopher_get_http_code '0' (some "/0/missing".toList)
    "3 '/other' does not exist\terror.host\t1\r\n".toList = (200, '0') := by decide

/-- The HTTP status function exactly as claim C3 states it: 400 for type
NONE, 0 for empty data, 404 with the type forced to `'1'` when the first
byte is `'3'` and the quoted selector matches the URL path suffix, and 200
in every other case. -/
def gopher_http_code_claim (type : Char) (path? : Option (List Char))
    (data : List Char) : Nat × Char :=
  if type = '\x00' then (400, type)
  else
    match data with
    | [] => (0, type)
    | d0 :: d1 =>
      if d0 = '3' ∧ error3_selector_match path? d1 then (404, '1')
      else (200, type)

/-- The MIME table exactly as claim C9 states it (the §3 table, with a space
in "text/html; charset=UTF-8"). -/
def gopher_mime_claimed (type : Char) : Option (List Char) :=
  if type = '0' then some "text/plain".toList
  else if type = '1' then some "text/html; charset=UTF-8".toList
  else if type = '7' then some "text/html; charset=UTF-8".toList
  else if type = 'g' then some "image/gif".toList
  else if type = 'h' then some "text/html".toList
  else if type = 'd' then some "application/pdf".toList
  else if type = 'P' then some "application/pdf".toList
  else if type = 'p' then some "image/png".toList
  else none

/-- The MIME table with the one byte-level correction the code forces: the
directory/query MIME string has no space after the semicolon. -/
def gopher_mime_amended (type : Char) : Option (List Char) :=
  if type = '0' then some "text/plain".toList
  else if type = '1' then some "text/html;charset=UTF-8".toList
  else if type = '7' then some "text/html;charset=UTF-8".toList
  else if type = 'g' then some "image/gif".toList
  else if type = 'h' then some "text/html".toList
  else if type = 'd' then some "application/pdf".toList
  else if type = 'P' then some "application/pdf".toList
  else if type = 'p' then some "image/png".toList
  else none

lemma need_generate_ne_nul {t : Char} (h : gopher_need_generate t = true) :
    t ≠ '\x00' := by
  intro h0
  subst h0
  exact absurd h (by decide)

/-- One end-of-stream call: what it emits. -/
lemma fetch_data_eos_emits (s : GopherState) :
    (gopher_fetch_data s []).1 =
      (if gopher_need_generate s.type then
        ["</div>\n</body>\n</html>\n".toList] else []) := by
  unfold gopher_fetch_data
  by_cases h : gopher_need_generate s.type
  · have hne : s.type ≠ '\x00' := need_generate_ne_nul h
    simp [h, hne, gopher_generate_bottom, snpr]
  · simp [h]

/-- One end-of-stream call: the session state is unchanged. -/
lemma fetch_data_eos_state (s : GopherState) :
    (gopher_fetch_data s []).2.1 = s := by
  unfold gopher_fetch_data
  simp

/-- Iterate `k` end-of-stream calls, collecting all emissions. -/
def gopher_feed_eos (s : GopherState) : Nat → List (List Char)
  | 0 => []
  | k + 1 =>
    (gopher_fetch_data s []).1 ++ gopher_feed_eos (gopher_fetch_data s []).2.1 k

/-- Claim C4 as stated is false: on a fresh session of declared type `'1'`
(so `header_sent` is still false) a zero-length call does emit the epilogue;
the code never consults `head_done` on the end-of-stream path. -/
theorem C4_counterexample :
    (⟨'1', "u".toList, false, 0, []⟩ : GopherState).head_done = false ∧
      (gopher_fetch_data ⟨'1', "u".toList, false, 0, []⟩ []).1 =
        ["</div>\n</body>\n</html>\n".toList] := by
  constructor
  · rfl
  · decide

/-- Claim C4, amended: a zero-length call emits the epilogue if and only if
the declared type requires transcoding (`'1'` or `'7'`), regardless of
whether the prologue has been sent; it leaves the session state unchanged. -/
theorem C4_amended (s : GopherState) :
    (gopher_fetch_data s []).1 =
      (if gopher_need_generate s.type then
        ["</div>\n</body>\n</html>\n".toList] else []) ∧
    (gopher_fetch_data s []).2.1 = s :=
  ⟨fetch_data_eos_emits s, fetch_data_eos_state s⟩

/-- Claim C5 as stated is false: two zero-length calls on a type-`'1'`
session emit the epilogue twice, not at most once; nothing in the state
records that the epilogue was already sent. -/
theorem C5_counterexample :
    gopher_feed_eos ⟨'1', "u".toList, true, 0, []⟩ 2 =
      ["</div>\n</body>\n</html>\n".toList, "</div>\n</body>\n</html>\n".toList] := by
  decide

/-- Claim C5, amended: `k` zero-length calls emit the epilogue exactly `k`
times when the declared type requires transcoding and never otherwise (so
"at most once" holds only when at most one end-of-stream call is made). -/
theorem C5_amended (s : GopherState) (k : Nat) :
    gopher_feed_eos s k =
      (if gopher_need_generate s.type then
        List.replicate k ("</div>\n</body>\n</html>\n".toList) else []) := by
  induction k with
  | zero => simp [gopher_feed_eos]
  | succ n ih =>
    rw [gopher_feed_eos, fetch_data_eos_state, ih, fetch_data_eos_emits]
    by_cases h : gopher_need_generate s.type <;> simp [h, List.replicate_succ]

/-- Claim C9 as stated is false at tag `'1'`: the code's MIME string has no
space after the semicolon ("text/html;charset=UTF-8"), the claim's table
entry has one. -/
theorem C9_counterexample :
    gopher_type_to_mime '1' ≠ gopher_mime_claimed '1' := by decide

/-- Claim C9, amended: `gopher_type_to_mime` returns exactly the table of
the claim except that the MIME type for `'1'` and `'7'` is
"text/html;charset=UTF-8" (no space), and none for every other tag. -/
theorem C9_amended (type : Char) :
    gopher_type_to_mime type = gopher_mime_amended type := by
  by_cases h0 : type = '0'
  · subst h0; decide
  by_cases h1 : type = '1'
  · subst h1; decide
  by_cases h7 : type = '7'
  · subst h7; decide
  by_cases hg : type = 'g'
  · subst hg; decide
  by_cases hh : type = 'h'
  · subst hh; decide
  by_cases hd : type = 'd'
  · subst hd; decide
  by_cases hP : type = 'P'
  · subst hP; decide
  by_cases hp : type = 'p'
  · subst hp; decide
  have n0 : ('0' : Char) ≠ type := fun h => h0 h.symm
  have n1 : ('1' : Char) ≠ type := fun h => h1 h.symm
  have n7 : ('7' : Char) ≠ type := fun h => h7 h.symm
  have ng : ('g' : Char) ≠ type := fun h => hg h.symm
  have nh : ('h' : Char) ≠ type := fun h => hh h.symm
  have nd : ('d' : Char) ≠ type := fun h => hd h.symm
  have nP : ('P' : Char) ≠ type := fun h => hP h.symm
  have np : ('p' : Char) ≠ type := fun h => hp h.symm
  simp [gopher_type_to_mime, gopher_type_map, gopher_type_to_mime_loop,
    gopher_mime_amended, n0, n1, n7, ng, nh, nd, nP, np,
    h0, h1, h7, hg, hh, hd, hP, hp]

/-- Claim C2: evaluation at the failing input.  With output buffer length 1
the complete line "iX\r\n" is consumed (the view's data pointer is advanced
past it to "Z") although the call returns false, because
`gopher_generate_row` executes `*data = p` unconditionally but only executes
`*size = sz` when the rendering succeeded.  The claim requires a false
return to leave the view unchanged. -/
theorem C2_bug_eval :
    gopher_generate_row "iX\r\nZ".toList 1 = .renderFail "Z".toList ∧
      "Z".toList ≠ "iX\r\nZ".toList := by
  constructor
  · decide
  · decide

/-- Claim C8: evaluation at the failing input.  For the type-`'i'` line
"iHello\r\n" the SELECTOR field is absent, yet the code renders
`<h2>Hello</h2><br/>\n` instead of the claimed
`<span class="info">Hello</span><br/>`: the C condition
`(fields[FIELD_SELECTOR] && strcmp(fields[FIELD_SELECTOR], "TITLE")) == 0`
compares the whole conjunction with 0, so a NULL selector lands in the
`<h2>` branch (and the `<h2>` format string carries a trailing `<br/>`). -/
theorem C8_bug_eval :
    gopher_generate_row "iHello\r\nX".toList 4096 =
      .ok "<h2>Hello</h2><br/>\n".toList "X".toList := by
  decide

/-- Claim C3 as stated is false: with declared type `'7'` (which requires
transcoding) and first bytes "3x" (no quoted selector at all), the code
returns 404 via the `gopher_need_generate` shortcut while the claim's case
analysis demands 200. -/
theorem C3_counterexample :
    gopher_get_http_code '7' (some "/7/ab".toList) "3x".toList ≠
      gopher_http_code_claim '7' (some "/7/ab".toList) "3x".toList := by
  decide

/-- Claim C3, amended: 400 when the declared type is NONE; 0 when the length
is zero; when the first byte is `'3'` and the declared type already requires
transcoding, 404 immediately with the type left unchanged and the selector
never inspected; when the first byte is `'3'` and the declared type does not
require transcoding, 404 with the type forced to `'1'` exactly when the
quoted selector matches the URL path suffix and 200 otherwise; and 200 when
the first byte is not `'3'`. -/
theorem C3_amended (type : Char) (path? : Option (List Char)) (data : List Char) :
    (type = '\x00' → gopher_get_http_code type path? data = (400, type)) ∧
    (type ≠ '\x00' → data = [] → gopher_get_http_code type path? data = (0, type)) ∧
    (∀ d0 d1, type ≠ '\x00' → data = d0 :: d1 → d0 = '3' →
      gopher_need_generate type = true →
      gopher_get_http_code type path? data = (404, type)) ∧
    (∀ d0 d1, type ≠ '\x00' → data = d0 :: d1 → d0 = '3' →
      gopher_need_generate type = false →
      gopher_get_http_code type path? data =
        (if error3_selector_match path? d1 then (404, '1') else (200, type))) ∧
    (∀ d0 d1, type ≠ '\x00' → data = d0 :: d1 → d0 ≠ '3' →
      gopher_get_http_code type path? data = (200, type)) := by
  refine ⟨?_, ?_, ?_, ?_, ?_⟩
  · intro h
    simp [gopher_get_http_code, h]
  · intro h he
    subst he
    simp [gopher_get_http_code, h]
  · intro d0 d1 h he h3 hg
    subst he
    subst h3
    simp [gopher_get_http_code, h, hg]
  · intro d0 d1 h he h3 hg
    subst he
    subst h3
    by_cases hm : error3_selector_match path? d1 <;>
      simp [gopher_get_http_code, h, hg, hm]
  · intro d0 d1 h he h3
    subst he
    simp [gopher_get_http_code, h, h3]

/-- Witness for the amended C3 theorem at a concrete matching error line. -/
theorem C3_amended_witness :
    gopher_get_http_code '0' (some "/0/missing".toList)
      "3 '/missing' does not exist".toList = (404, '1') := by
  have h := (C3_amended '0' (some "/0/missing".toList)
      "3 '/missing' does not exist".toList).2.2.2.1 '3'
      " '/missing' does not exist".toList (by decide) rfl rfl (by decide)
  rw [show error3_selector_match (some "/0/missing".toList)
      " '/missing' does not exist".toList = true from by decide] at h
  simpa using h

/-- A byte string is cleanly escaped when it contains no `<`, no `>`, and
every `&` starts one of the entities `&lt;`, `&gt;`, `&amp;`. -/
def esc_clean : List Char → Bool
  | [] => true
  | c :: r =>
    if c = '<' then false
    else if c = '>' then false
    else if c = '&' then
      (r.take 3 = "lt;".toList || r.take 3 = "gt;".toList ||
        r.take 4 = "amp;".toList) && esc_clean r
    else esc_clean r

lemma esc_clean_escape (s : List Char) :
    esc_clean (html_escape_string s) = true := by
  induction s with
  | nil => rfl
  | cons c t ih =>
    rw [html_escape_string]
    by_cases h0 : c = '\x00'
    · simp [h0, esc_clean]
    by_cases hlt : c = '<'
    · rw [if_neg h0, if_pos hlt]
      simp [esc_clean, ih]
    by_cases hgt : c = '>'
    · rw [if_neg h0, if_neg hlt, if_pos hgt]
      simp [esc_clean, ih]
    by_cases hamp : c = '&'
    · rw [if_neg h0, if_neg hlt, if_neg hgt, if_pos hamp]
      simp [esc_clean, ih]
    · rw [if_neg h0, if_neg hlt, if_neg hgt, if_neg hamp]
      rw [esc_clean, if_neg hlt, if_neg hgt, if_neg hamp]
      exact ih

/-- Claim C6, escape soundness: the escaped NAME field contains no `<`, no
`>`, and every `&` only as the head of `&lt;`, `&gt;` or `&amp;`; and the
NAME field influences the emitted fragment only through
`html_escape_string`, so every NAME-derived position of the fragment is
cleanly escaped. -/
theorem C6_escape_soundness :
    (∀ name : List Char, esc_clean (html_escape_string name) = true) ∧
    (∀ (type : Char) (sel host port gp : Option (List Char)) (blen : Nat)
      (n1 n2 : List Char), html_escape_string n1 = html_escape_string n2 →
      gopher_generate_row_internal type ⟨some n1, sel, host, port, gp⟩ blen =
        gopher_generate_row_internal type ⟨some n2, sel, host, port, gp⟩ blen) := by
  constructor
  · exact esc_clean_escape
  · intro type sel host port gp blen n1 n2 h
    unfold gopher_generate_row_internal gopher_row_body
    simp only [html_escape_opt]
    rw [h]

/-- Witness for C6 at concrete inputs. -/
theorem C6_witness :
    esc_clean (html_escape_string "a<b>&c".toList) = true ∧
    gopher_generate_row_internal '1'
        ⟨some "a<b>&c".toList, some "s".toList, some "h".toList,
          some "70".toList, none⟩ 4096 =
      gopher_generate_row_internal '1'
        ⟨some "a<b>&c".toList, some "s".toList, some "h".toList,
          some "70".toList, none⟩ 4096 :=
  ⟨C6_escape_soundness.1 "a<b>&c".toList,
    C6_escape_soundness.2 '1' (some "s".toList) (some "h".toList)
      (some "70".toList) none 4096 "a<b>&c".toList "a<b>&c".toList rfl⟩

/-- Claim C7 as stated is false: a line whose PORT field is present but
empty produces a URL with the port omitted although the PORT differs from
the default "70"; the code omits the port whenever it is absent, empty, or
equal to the default. -/
theorem C7_counterexample :
    ([] : List Char) ≠ "70".toList ∧
    gopher_generate_row_internal '1'
        ⟨some "n".toList, some "s".toList, some "h".toList, some [], none⟩ 4096 =
      some "<a href=\"gopher://h/1s\"><span class=\"dir\">n</span></a><br/>\n".toList := by
  constructor
  · decide
  · decide

/-- Claim C7, amended: in every emitted URL the port is omitted when the
PORT field is absent, empty, or equal to the scheme's default ("70" for
gopher links, "23" for telnet and tn3270, "105" for CSO), and appears
verbatim as ":PORT" otherwise.  Stated as exact fragment templates for the
directory, telnet, tn3270 and CSO renderings with a present PORT field. -/
theorem C7_amended (name sel host p : List Char) (gp : Option (List Char))
    (blen : Nat) :
    (gopher_generate_row_internal '1' ⟨some name, some sel, some host, some p, gp⟩ blen =
      snpr blen ("<a href=\"gopher://".toList ++ host ++
        (if p = [] ∨ p = "70".toList then [] else ':' :: p) ++
        '/' :: '1' :: sel ++ "\"><span class=\"dir\">".toList ++
        html_escape_string name ++ "</span></a><br/>\n".toList)) ∧
    (gopher_generate_row_internal '8' ⟨some name, some sel, some host, some p, gp⟩ blen =
      snpr blen ("<a href=\"telnet://".toList ++ user_frag (last_slash_suffix sel) ++
        host ++ (if p = [] ∨ p = "23".toList then [] else ':' :: p) ++
        "\"><span class=\"telnet\">".toList ++
        html_escape_string name ++ "</span></a><br/>\n".toList)) ∧
    (gopher_generate_row_internal 'T' ⟨some name, some sel, some host, some p, gp⟩ blen =
      snpr blen ("<a href=\"tn3270://".toList ++ user_frag (last_slash_suffix sel) ++
        host ++ (if p = [] ∨ p = "23".toList then [] else ':' :: p) ++
        "\"><span class=\"telnet\">".toList ++
        html_escape_string name ++ "</span></a><br/>\n".toList)) ∧
    (gopher_generate_row_internal '2' ⟨some name, some sel, some host, some p, gp⟩ blen =
      snpr blen ("<a href=\"cso://".toList ++ host ++
        (if p = [] ∨ p = "105".toList then [] else ':' :: p) ++
        "\"><span class=\"cso\">".toList ++
        html_escape_string name ++ "</span></a><br/>\n".toList)) := by
  have hport : ∀ dflt : List Char,
      port_frag (alt_port_test dflt (some p)) (some p) =
        (if p = [] ∨ p = dflt then [] else ':' :: p) := by
    intro dflt
    by_cases h1 : p = []
    · simp [alt_port_test, port_frag, h1]
    by_cases h2 : p = dflt
    · simp [alt_port_test, port_frag, h1, h2]
    · simp [alt_port_test, port_frag, cstr, h1, h2]
  refine ⟨?_, ?_, ?_, ?_⟩ <;>
    · unfold gopher_generate_row_internal gopher_row_body
      simp only [html_escape_opt, cstr, hport]

lemma row_loop_nul_cutoff (blen : Nat) (u : List Char) :
    ∀ (ty : Option Char) (field : Nat) (f : RowFields) (acc w : List Char),
    (∀ c ∈ u, c ≠ '\x00' ∧ c ≠ '\r' ∧ c ≠ '\n') →
    gopher_generate_row_loop blen ty field f acc (u ++ '\x00' :: w) =
      .incomplete := by
  induction u with
  | nil =>
    intro ty field f acc w _
    cases ty <;> simp [gopher_generate_row_loop]
  | cons c u2 ih =>
    intro ty field f acc w h
    obtain ⟨hc0, hcr, hcn⟩ := h c (List.mem_cons_self c u2)
    have hrest : ∀ x ∈ u2, x ≠ '\x00' ∧ x ≠ '\r' ∧ x ≠ '\n' :=
      fun x hx => h x (List.mem_cons_of_mem c hx)
    have hnl : ¬(c = '\n' ∨ c = '\r') := by
      rintro (h1 | h2)
      · exact hcn h1
      · exact hcr h2
    cases ty with
    | none =>
      show gopher_generate_row_loop blen none field f acc
        (c :: (u2 ++ '\x00' :: w)) = .incomplete
      rw [gopher_generate_row_loop, if_neg hc0, if_neg hnl]
      exact ih (some c) field f acc w hrest
    | some t =>
      show gopher_generate_row_loop blen (some t) field f acc
        (c :: (u2 ++ '\x00' :: w)) = .incomplete
      rw [gopher_generate_row_loop, if_neg hc0, if_neg hnl]
      by_cases ht : c = '\x09'
      · rw [if_pos ht]
        by_cases hf : 4 ≤ field
        · rw [if_pos hf]
          exact ih (some t) field f (c :: acc) w hrest
        · rw [if_neg hf]
          exact ih (some t) (field + 1) (setField f field acc.reverse) [] w hrest
      · rw [if_neg ht]
        exact ih (some t) field f (c :: acc) w hrest

/-- Claim C10: a NUL byte anywhere before the line terminator makes
`gopher_generate_row` return false with the view unchanged, regardless of
what follows the NUL; a menu line containing a NUL in any field is never
rendered. -/
theorem C10_nul_cutoff (u w : List Char) (blen : Nat)
    (h : ∀ c ∈ u, c ≠ '\x00' ∧ c ≠ '\r' ∧ c ≠ '\n') :
    gopher_generate_row (u ++ '\x00' :: w) blen = .incomplete :=
  row_loop_nul_cutoff blen u none 0 ⟨none, none, none, none, none⟩ [] w h

/-- Witness for C10: a line with a NUL inside its SELECTOR field, followed
by a complete well-formed remainder, is reported incomplete. -/
theorem C10_witness :
    (∀ c ∈ "0ab\tsel".toList, c ≠ '\x00' ∧ c ≠ '\r' ∧ c ≠ '\n') ∧
    gopher_generate_row ("0ab\tsel".toList ++ '\x00' :: "ector\thost\t70\r\nrest".toList)
      4096 = .incomplete :=
  ⟨by decide, C10_nul_cutoff "0ab\tsel".toList "ector\thost\t70\r\nrest".toList
    4096 (by decide)⟩

lemma row_loop_ok_length (blen : Nat) :
    ∀ (r : List Char) (ty : Option Char) (field : Nat) (f : RowFields)
      (acc frag rest : List Char),
    gopher_generate_row_loop blen ty field f acc r = .ok frag rest →
    rest.length < r.length := by
  intro r
  induction r with
  | nil =>
    intro ty field f acc frag rest h
    rw [gopher_generate_row_loop] at h
    exact absurd h (by simp)
  | cons c r2 ih =>
    intro ty field f acc frag rest h
    cases ty with
    | none =>
      rw [gopher_generate_row_loop] at h
      by_cases hc0 : c = '\x00'
      · rw [if_pos hc0] at h
        exact absurd h (by simp)
      rw [if_neg hc0] at h
      by_cases hnl : c = '\n' ∨ c = '\r'
      · rw [if_pos hnl] at h
        exact Nat.lt_trans (ih none 0 f acc frag rest h) (Nat.lt_succ_self _)
      · rw [if_neg hnl] at h
        exact Nat.lt_trans (ih (some c) field f acc frag rest h) (Nat.lt_succ_self _)
    | some t =>
      rw [gopher_generate_row_loop] at h
      by_cases hc0 : c = '\x00'
      · rw [if_pos hc0] at h
        exact absurd h (by simp)
      rw [if_neg hc0] at h
      by_cases hnl : c = '\n' ∨ c = '\r'
      · rw [if_pos hnl] at h
        by_cases hr2 : r2 = []
        · rw [if_pos hr2] at h
          exact absurd h (by simp)
        rw [if_neg hr2] at h
        cases hgen : gopher_generate_row_internal t (setField f field acc.reverse) blen with
        | some fr =>
          rw [hgen] at h
          simp only [RowResult.ok.injEq] at h
          obtain ⟨_, h2⟩ := h
          subst h2
          by_cases hh : r2.head? = some '\n'
          · rw [if_pos hh]
            simp only [List.length_tail, List.length_cons]
            omega
          · rw [if_neg hh]
            exact Nat.lt_succ_self _
        | none =>
          rw [hgen] at h
          exact absurd h (by simp)
      · rw [if_neg hnl] at h
        by_cases ht : c = '\x09'
        · rw [if_pos ht] at h
          by_cases hf : 4 ≤ field
          · rw [if_pos hf] at h
            exact Nat.lt_trans (ih (some t) field f (c :: acc) frag rest h)
              (Nat.lt_succ_self _)
          · rw [if_neg hf] at h
            exact Nat.lt_trans
              (ih (some t) (field + 1) (setField f field acc.reverse) [] frag rest h)
              (Nat.lt_succ_self _)
        · rw [if_neg ht] at h
          exact Nat.lt_trans (ih (some t) field f (c :: acc) frag rest h)
            (Nat.lt_succ_self _)

/-- Extend the remainder of a non-incomplete row result by `e`. -/
def RowResult.ext (e : List Char) : RowResult → RowResult
  | .incomplete => .incomplete
  | .renderFail rest => .renderFail (rest ++ e)
  | .ok frag rest => .ok frag (rest ++ e)

lemma row_loop_ext (blen : Nat) :
    ∀ (r : List Char) (ty : Option Char) (field : Nat) (f : RowFields)
      (acc e : List Char),
    gopher_generate_row_loop blen ty field f acc r ≠ .incomplete →
    gopher_generate_row_loop blen ty field f acc (r ++ e) =
      (gopher_generate_row_loop blen ty field f acc r).ext e := by
  intro r
  induction r with
  | nil =>
    intro ty field f acc e h
    rw [gopher_generate_row_loop] at h
    exact absurd rfl h
  | cons c r2 ih =>
    intro ty field f acc e h
    rw [List.cons_append]
    cases ty with
    | none =>
      rw [gopher_generate_row_loop] at h ⊢
      rw [gopher_generate_row_loop]
      by_cases hc0 : c = '\x00'
      · rw [if_pos hc0] at h
        exact absurd rfl h
      rw [if_neg hc0] at h ⊢
      rw [if_neg hc0]
      by_cases hnl : c = '\n' ∨ c = '\r'
      · rw [if_pos hnl] at h ⊢
        rw [if_pos hnl]
        exact ih none 0 f acc e h
      · rw [if_neg hnl] at h ⊢
        rw [if_neg hnl]
        exact ih (some c) field f acc e h
    | some t =>
      rw [gopher_generate_row_loop] at h ⊢
      rw [gopher_generate_row_loop]
      by_cases hc0 : c = '\x00'
      · rw [if_pos hc0] at h
        exact absurd rfl h
      rw [if_neg hc0] at h ⊢
      rw [if_neg hc0]
      by_cases hnl : c = '\n' ∨ c = '\r'
      · rw [if_pos hnl] at h ⊢
        rw [if_pos hnl]
        by_cases hr2 : r2 = []
        · rw [if_pos hr2] at h
          exact absurd rfl h
        have hr2e : r2 ++ e ≠ [] := fun hx => hr2 (List.append_eq_nil.mp hx).1
        rw [if_neg hr2] at h ⊢
        rw [if_neg hr2e]
        obtain ⟨d, r3, rfl⟩ := List.exists_cons_of_ne_nil hr2
        cases hgen : gopher_generate_row_internal t (setField f field acc.reverse) blen with
        | some fr => by_cases hd : d = '\n' <;> simp [hd, RowResult.ext]
        | none => by_cases hd : d = '\n' <;> simp [hd, RowResult.ext]
      · rw [if_neg hnl] at h ⊢
        rw [if_neg hnl]
        by_cases ht : c = '\x09'
        · rw [if_pos ht] at h ⊢
          rw [if_pos ht]
          by_cases hf : 4 ≤ field
          · rw [if_pos hf] at h ⊢
            rw [if_pos hf]
            exact ih (some t) field f (c :: acc) e h
          · rw [if_neg hf] at h ⊢
            rw [if_neg hf]
            exact ih (some t) (field + 1) (setField f field acc.reverse) [] e h
        · rw [if_neg ht] at h ⊢
          rw [if_neg ht]
          exact ih (some t) field f (c :: acc) e h

lemma gopher_generate_row_ok_length {v frag rest : List Char} {blen : Nat}
    (h : gopher_generate_row v blen = .ok frag rest) :
    rest.length < v.length :=
  row_loop_ok_length blen v none 0 ⟨none, none, none, none, none⟩ [] frag rest h

lemma gopher_generate_row_ext {v : List Char} {blen : Nat} (e : List Char)
    (h : gopher_generate_row v blen ≠ .incomplete) :
    gopher_generate_row (v ++ e) blen = (gopher_generate_row v blen).ext e :=
  row_loop_ext blen v none 0 ⟨none, none, none, none, none⟩ [] e h

lemma gopher_rows_fuel (blen : Nat) :
    ∀ (n : Nat), ∀ (m : Nat) (v : List Char), v.length < n → v.length < m →
    gopher_rows blen n v = gopher_rows blen m v := by
  intro n
  induction n with
  | zero => intro m v h _; exact absurd h (Nat.not_lt_zero _)
  | succ n2 ih =>
    intro m v hn hm
    obtain ⟨m2, rfl⟩ : ∃ m2, m = m2 + 1 :=
      ⟨m - 1, (Nat.succ_pred_eq_of_pos (Nat.lt_of_le_of_lt (Nat.zero_le _) hm)).symm⟩
    rw [gopher_rows, gopher_rows]
    cases hrow : gopher_generate_row v blen with
    | ok frag rest =>
      have hlt := gopher_generate_row_ok_length hrow
      have h1 : rest.length < n2 := Nat.lt_of_lt_of_le hlt (Nat.lt_succ_iff.mp hn)
      have h2 : rest.length < m2 := Nat.lt_of_lt_of_le hlt (Nat.lt_succ_iff.mp hm)
      dsimp only
      rw [ih m2 rest h1 h2]
    | incomplete => rfl
    | renderFail rest => rfl

lemma rows_run_ok {blen : Nat} {v frag rest : List Char}
    (h : gopher_generate_row v blen = .ok frag rest) :
    gopher_rows_run blen v =
      (frag :: (gopher_rows_run blen rest).1,
        (gopher_rows_run blen rest).2.1, (gopher_rows_run blen rest).2.2) := by
  have hlt := gopher_generate_row_ok_length h
  rw [gopher_rows_run, gopher_rows, h]
  dsimp only
  rw [gopher_rows_fuel blen v.length (rest.length + 1) rest hlt (Nat.lt_succ_self _)]
  rfl

lemma rows_run_incomplete {blen : Nat} {v : List Char}
    (h : gopher_generate_row v blen = .incomplete) :
    gopher_rows_run blen v = ([], v, false) := by
  rw [gopher_rows_run, gopher_rows, h]

lemma rows_run_fail {blen : Nat} {v rest : List Char}
    (h : gopher_generate_row v blen = .renderFail rest) :
    gopher_rows_run blen v =
      ([], rest ++ List.replicate (v.length - rest.length) '\x00', true) := by
  rw [gopher_rows_run, gopher_rows, h]

lemma rows_run_flag_mono (blen : Nat) :
    ∀ (n : Nat) (v e : List Char), v.length < n →
    (gopher_rows_run blen v).2.2 = true →
    (gopher_rows_run blen (v ++ e)).2.2 = true := by
  intro n
  induction n with
  | zero => intro v e h _; exact absurd h (Nat.not_lt_zero _)
  | succ n2 ih =>
    intro v e hn h
    cases hrow : gopher_generate_row v blen with
    | ok frag rest =>
      have hne : gopher_generate_row v blen ≠ .incomplete := by rw [hrow]; simp
      have hext := gopher_generate_row_ext e hne
      rw [hrow] at hext
      rw [rows_run_ok hext]
      rw [rows_run_ok hrow] at h
      exact ih rest e
        (Nat.lt_of_lt_of_le (gopher_generate_row_ok_length hrow) (Nat.lt_succ_iff.mp hn)) h
    | incomplete =>
      rw [rows_run_incomplete hrow] at h
      exact absurd h (by simp)
    | renderFail rest =>
      have hne : gopher_generate_row v blen ≠ .incomplete := by rw [hrow]; simp
      have hext := gopher_generate_row_ext e hne
      rw [hrow] at hext
      rw [rows_run_fail hext]

lemma rows_run_stuck (blen : Nat) :
    ∀ (n : Nat) (v : List Char), v.length < n →
    (gopher_rows_run blen v).2.2 = false →
    gopher_generate_row (gopher_rows_run blen v).2.1 blen = .incomplete := by
  intro n
  induction n with
  | zero => intro v h _; exact absurd h (Nat.not_lt_zero _)
  | succ n2 ih =>
    intro v hn h
    cases hrow : gopher_generate_row v blen with
    | ok frag rest =>
      rw [rows_run_ok hrow] at h ⊢
      exact ih rest
        (Nat.lt_of_lt_of_le (gopher_generate_row_ok_length hrow) (Nat.lt_succ_iff.mp hn)) h
    | incomplete =>
      rw [rows_run_incomplete hrow]
      exact hrow
    | renderFail rest =>
      rw [rows_run_fail hrow] at h
      exact absurd h (by simp)

lemma rows_run_append (blen : Nat) :
    ∀ (n : Nat) (v e : List Char), v.length < n →
    (gopher_rows_run blen v).2.2 = false →
    gopher_rows_run blen (v ++ e) =
      ((gopher_rows_run blen v).1 ++
        (gopher_rows_run blen ((gopher_rows_run blen v).2.1 ++ e)).1,
       (gopher_rows_run blen ((gopher_rows_run blen v).2.1 ++ e)).2.1,
       (gopher_rows_run blen ((gopher_rows_run blen v).2.1 ++ e)).2.2) := by
  intro n
  induction n with
  | zero => intro v e h _; exact absurd h (Nat.not_lt_zero _)
  | succ n2 ih =>
    intro v e hn h
    cases hrow : gopher_generate_row v blen with
    | ok frag rest =>
      have hne : gopher_generate_row v blen ≠ .incomplete := by rw [hrow]; simp
      have hext := gopher_generate_row_ext e hne
      rw [hrow] at hext
      rw [rows_run_ok hrow] at h
      rw [rows_run_ok hext, rows_run_ok hrow,
        ih rest e (Nat.lt_of_lt_of_le (gopher_generate_row_ok_length hrow)
          (Nat.lt_succ_iff.mp hn)) h]
      simp
    | incomplete =>
      rw [rows_run_incomplete hrow]
      simp
    | renderFail rest =>
      rw [rows_run_fail hrow] at h
      exact absurd h (by simp)

lemma fetch_data_chunk (ty : Char) (url : List Char) (hdone : Bool)
    (carry data : List Char) (hd : data ≠ []) :
    gopher_fetch_data ⟨ty, url, hdone, carry.length, carry⟩ data =
      ((if hdone then [] else gopher_head_emissions url) ++
        (gopher_rows_run 4096 (carry ++ data)).1,
       ⟨ty, url, true, (gopher_rows_run 4096 (carry ++ data)).2.1.length,
         (gopher_rows_run 4096 (carry ++ data)).2.1⟩,
       (gopher_rows_run 4096 (carry ++ data)).2.2) := by
  have hbuf : (if carry.length ≠ 0 then carry ++ data else data) = carry ++ data := by
    by_cases hcz : carry = []
    · subst hcz; simp
    · rw [if_pos (by simpa [List.length_eq_zero] using hcz)]
  unfold gopher_fetch_data
  rw [if_neg (by simpa using hd)]
  simp only [hbuf]

/-- Feeding chunks into a session whose carry buffer holds `carry` (no
complete line in it) parses exactly the rows of `carry` followed by the
joined chunks, provided no row rendering fails along the way. -/
lemma feed_all_from_carry (ty : Char) (url : List Char) :
    ∀ (cs : List (List Char)) (carry : List Char),
    (∀ c ∈ cs, c ≠ []) →
    gopher_generate_row carry 4096 = .incomplete →
    (gopher_rows_run 4096 (carry ++ cs.flatten)).2.2 = false →
    gopher_feed_all ⟨ty, url, true, carry.length, carry⟩ cs =
      ((gopher_rows_run 4096 (carry ++ cs.flatten)).1,
        ⟨ty, url, true, (gopher_rows_run 4096 (carry ++ cs.flatten)).2.1.length,
          (gopher_rows_run 4096 (carry ++ cs.flatten)).2.1⟩,
        false) := by
  intro cs
  induction cs with
  | nil =>
    intro carry _ hstuck _
    rw [List.flatten_nil, List.append_nil, rows_run_incomplete hstuck]
    rfl
  | cons c rest ih =>
    intro carry hne hstuck hflag
    have hc : c ≠ [] := hne c (List.mem_cons_self c rest)
    have hjoin : (c :: rest).flatten = c ++ rest.flatten := by simp
    rw [hjoin, ← List.append_assoc] at hflag
    have hflag1 : (gopher_rows_run 4096 (carry ++ c)).2.2 = false := by
      by_contra hx
      rw [Bool.not_eq_false] at hx
      rw [rows_run_flag_mono 4096 ((carry ++ c).length + 1) (carry ++ c) rest.flatten
        (Nat.lt_succ_self _) hx] at hflag
      exact absurd hflag (by simp)
    have hdec := rows_run_append 4096 ((carry ++ c).length + 1) (carry ++ c) rest.flatten
      (Nat.lt_succ_self _) hflag1
    have hstuck1 : gopher_generate_row (gopher_rows_run 4096 (carry ++ c)).2.1 4096 =
        .incomplete :=
      rows_run_stuck 4096 ((carry ++ c).length + 1) (carry ++ c) (Nat.lt_succ_self _) hflag1
    have hflagrest : (gopher_rows_run 4096
        ((gopher_rows_run 4096 (carry ++ c)).2.1 ++ rest.flatten)).2.2 = false := by
      rw [hdec] at hflag
      exact hflag
    rw [gopher_feed_all, fetch_data_chunk ty url true carry c hc]
    dsimp only
    rw [ih (gopher_rows_run 4096 (carry ++ c)).2.1
      (fun x hx => hne x (List.mem_cons_of_mem c hx)) hstuck1 hflagrest]
    rw [hjoin, ← List.append_assoc, hdec]
    simp
    exact hflag1

/-- Claim C1, amended: feeding the chunks of S one at a time to
`gopher_fetch_data` on a fresh session produces exactly the same sequence of
DATA emissions as feeding S in a single call on a fresh session, provided no
row's rendering overflows the 4096-byte row buffer during the parse of S
(when a rendering does overflow, `gopher_generate_row` advances the data
pointer without updating the remaining size and the carry copy reads out of
bounds, breaking the equivalence -- see the counterexample). -/
theorem C1_amended (ty : Char) (url : List Char) (cs : List (List Char))
    (hne : ∀ c ∈ cs, c ≠ []) (hcs : cs ≠ [])
    (hflag : (gopher_rows_run 4096 cs.flatten).2.2 = false) :
    (gopher_feed_all ⟨ty, url, false, 0, []⟩ cs).1 =
      (gopher_fetch_data ⟨ty, url, false, 0, []⟩ cs.flatten).1 := by
  cases cs with
  | nil => exact absurd rfl hcs
  | cons c rest =>
    have hc : c ≠ [] := hne c (List.mem_cons_self c rest)
    have hflat : (c :: rest).flatten = c ++ rest.flatten := by simp
    have hS : (c :: rest).flatten ≠ [] := by
      rw [hflat]
      intro hx
      exact hc (List.append_eq_nil.mp hx).1
    rw [hflat] at hflag
    have hflagc : (gopher_rows_run 4096 c).2.2 = false := by
      by_contra hx
      rw [Bool.not_eq_false] at hx
      rw [rows_run_flag_mono 4096 (c.length + 1) c rest.flatten
        (Nat.lt_succ_self _) hx] at hflag
      exact absurd hflag (by simp)
    have hstuckc := rows_run_stuck 4096 (c.length + 1) c (Nat.lt_succ_self _) hflagc
    have hdec := rows_run_append 4096 (c.length + 1) c rest.flatten
      (Nat.lt_succ_self _) hflagc
    have hfr : (gopher_rows_run 4096
        ((gopher_rows_run 4096 c).2.1 ++ rest.flatten)).2.2 = false := by
      rw [hdec] at hflag
      exact hflag
    have hrest := feed_all_from_carry ty url rest (gopher_rows_run 4096 c).2.1
      (fun x hx => hne x (List.mem_cons_of_mem c hx)) hstuckc hfr
    have hwhole := fetch_data_chunk ty url false [] ((c :: rest).flatten) hS
    have h1 := fetch_data_chunk ty url false [] c hc
    simp only [List.length_nil, List.nil_append, Bool.false_eq_true,
      if_false] at hwhole h1
    rw [gopher_feed_all]
    dsimp only
    rw [h1, hwhole, hrest]
    dsimp only
    rw [hflat, hdec]
    dsimp only
    rw [List.append_assoc]

lemma row_loop_plain (blen : Nat) :
    ∀ (u : List Char),
    (∀ c ∈ u, c ≠ '\x00' ∧ c ≠ '\r' ∧ c ≠ '\n' ∧ c ≠ '\x09') →
    ∀ (t : Char) (field : Nat) (f : RowFields) (acc r : List Char),
    gopher_generate_row_loop blen (some t) field f acc (u ++ r) =
      gopher_generate_row_loop blen (some t) field f (u.reverse ++ acc) r := by
  intro u
  induction u with
  | nil => intro _ t field f acc r; simp
  | cons c u2 ih =>
    intro hu t field f acc r
    obtain ⟨hc0, hcr, hcn, hct⟩ := hu c (List.mem_cons_self c u2)
    have hnl : ¬(c = '\n' ∨ c = '\r') := by
      rintro (h1 | h2)
      · exact hcn h1
      · exact hcr h2
    rw [List.cons_append, gopher_generate_row_loop, if_neg hc0, if_neg hnl, if_neg hct]
    rw [ih (fun x hx => hu x (List.mem_cons_of_mem c hx)) t field f (c :: acc) r]
    simp

lemma escape_plain :
    ∀ (u : List Char),
    (∀ c ∈ u, c ≠ '\x00' ∧ c ≠ '<' ∧ c ≠ '>' ∧ c ≠ '&') →
    html_escape_string u = u := by
  intro u
  induction u with
  | nil => intro _; rfl
  | cons c u2 ih =>
    intro hu
    obtain ⟨h0, h1, h2, h3⟩ := hu c (List.mem_cons_self c u2)
    rw [html_escape_string, if_neg h0, if_neg h1, if_neg h2, if_neg h3,
      ih (fun x hx => hu x (List.mem_cons_of_mem c hx))]

lemma row_tail_steps (blen : Nat) (nm : List Char) :
    gopher_generate_row_loop blen (some '1') 0 ⟨none, none, none, none, none⟩ nm
      ('\x09' :: '/' :: 's' :: '\x09' :: 'h' :: '\x09' :: '7' :: '0' :: '\x0d' :: '\n' :: []) =
      (match gopher_generate_row_internal '1'
          ⟨some nm.reverse, some ['/', 's'], some ['h'], some ['7', '0'], none⟩ blen with
      | some frag => RowResult.ok frag []
      | none => RowResult.renderFail []) := by
  simp [gopher_generate_row_loop, setField]

def c1_bad : List Char := '1' :: (List.replicate 4100 'a' ++
  ('\x09' :: '/' :: 's' :: '\x09' :: 'h' :: '\x09' :: '7' :: '0' :: '\x0d' :: '\n' :: []))

def c1_good : List Char := "0B\t/b\th\t70\r\n".toList

lemma c1_bad_internal :
    gopher_generate_row_internal '1'
      ⟨some (List.replicate 4100 'a'), some ['/', 's'], some ['h'], some ['7', '0'], none⟩
      4096 = none := by
  unfold gopher_generate_row_internal gopher_row_body
  simp only [html_escape_opt]
  rw [escape_plain (List.replicate 4100 'a')
    (fun c hc => by rw [List.eq_of_mem_replicate hc]; exact (by decide))]
  have hport2 : port_frag (alt_port_test "70".toList (some ['7', '0']))
      (some ['7', '0']) = [] := by decide
  simp only [cstr, hport2]
  have hlen : ¬(("<a href=\"gopher://".toList ++ ['h'] ++ ([] : List Char) ++
      ['/', '1', '/', 's'] ++ "\"><span class=\"dir\">".toList ++
      List.replicate 4100 'a' ++ "</span></a><br/>\n".toList).length < 4096) := by
    simp only [List.length_append, List.length_replicate]
    decide
  unfold snpr
  rw [if_neg hlen]

lemma c1_bad_row :
    gopher_generate_row c1_bad 4096 = .renderFail [] := by
  unfold gopher_generate_row c1_bad
  rw [gopher_generate_row_loop, if_neg (by decide), if_neg (by decide)]
  rw [row_loop_plain 4096 (List.replicate 4100 'a')
    (fun c hc => by rw [List.eq_of_mem_replicate hc]; exact (by decide))]
  rw [List.append_nil, List.reverse_replicate]
  rw [row_tail_steps, List.reverse_replicate, c1_bad_internal]

lemma nul_head_row (w : List Char) (blen : Nat) :
    gopher_generate_row ('\x00' :: w) blen = .incomplete := by
  rw [gopher_generate_row, gopher_generate_row_loop, if_pos rfl]

lemma c1_good_row :
    gopher_generate_row c1_good 4096 =
      .ok "<a href=\"gopher://h/0/b\"><span class=\"text\">B</span></a><br/>\n".toList
        [] := by
  decide

lemma c1_bad_length_pos : 0 < c1_bad.length := by
  rw [c1_bad]
  simp only [List.length_cons]
  omega

lemma c1_whole_emissions :
    (gopher_fetch_data ⟨'1', "u".toList, false, 0, []⟩
      ((c1_bad ++ c1_good) ++ "x".toList)).1 = gopher_head_emissions "u".toList := by
  have hS : (c1_bad ++ c1_good) ++ "x".toList ≠ [] := by
    rw [c1_bad]
    simp only [List.cons_append]
    exact List.cons_ne_nil _ _
  have hrowS : gopher_generate_row ((c1_bad ++ c1_good) ++ "x".toList) 4096 =
      .renderFail (c1_good ++ "x".toList) := by
    rw [List.append_assoc]
    have h := gopher_generate_row_ext (v := c1_bad) (c1_good ++ "x".toList)
      (by rw [c1_bad_row]; simp)
    rw [c1_bad_row] at h
    simpa [RowResult.ext] using h
  have hw := fetch_data_chunk '1' "u".toList false [] ((c1_bad ++ c1_good) ++ "x".toList) hS
  simp only [List.length_nil] at hw
  simp only [List.nil_append] at hw
  simp only [Bool.false_eq_true] at hw
  simp only [if_false] at hw
  have h1 : (gopher_rows_run 4096 ((c1_bad ++ c1_good) ++ "x".toList)).1 = [] := by
    rw [rows_run_fail hrowS]
  rw [hw, h1, List.append_nil]

lemma c1_chunk1_row :
    gopher_generate_row (c1_bad ++ c1_good) 4096 = .renderFail c1_good := by
  have h := gopher_generate_row_ext (v := c1_bad) c1_good
    (by rw [c1_bad_row]; simp)
  rw [c1_bad_row] at h
  simpa [RowResult.ext] using h

lemma c1_carry1 :
    (gopher_rows_run 4096 (c1_bad ++ c1_good)).2.1 =
      c1_good ++ List.replicate c1_bad.length '\x00' := by
  rw [rows_run_fail c1_chunk1_row]
  have hk : (c1_bad ++ c1_good).length - c1_good.length = c1_bad.length := by
    rw [List.length_append]
    omega
  rw [hk]

lemma c1_run2 :
    (gopher_rows_run 4096
      ((c1_good ++ List.replicate c1_bad.length '\x00') ++ "x".toList)).1 =
      ["<a href=\"gopher://h/0/b\"><span class=\"text\">B</span></a><br/>\n".toList] := by
  rw [List.append_assoc]
  have hrowg : gopher_generate_row
      (c1_good ++ (List.replicate c1_bad.length '\x00' ++ "x".toList)) 4096 =
      .ok "<a href=\"gopher://h/0/b\"><span class=\"text\">B</span></a><br/>\n".toList
        (List.replicate c1_bad.length '\x00' ++ "x".toList) := by
    have h := gopher_generate_row_ext (v := c1_good)
      (List.replicate c1_bad.length '\x00' ++ "x".toList)
      (by rw [c1_good_row]; simp)
    rw [c1_good_row] at h
    simpa [RowResult.ext] using h
  rw [rows_run_ok hrowg]
  have hb : ∃ m, c1_bad.length = m + 1 :=
    ⟨(List.replicate 4100 'a' ++
        ('\x09' :: '/' :: 's' :: '\x09' :: 'h' :: '\x09' :: '7' :: '0' :: '\x0d' :: '\n' :: [])).length,
      by rw [c1_bad]; simp only [List.length_cons]⟩
  obtain ⟨m, hm⟩ := hb
  have hz : gopher_generate_row
      (List.replicate c1_bad.length '\x00' ++ "x".toList) 4096 = .incomplete := by
    rw [hm, List.replicate_succ, List.cons_append]
    exact nul_head_row _ _
  rw [rows_run_incomplete hz]

lemma c1_split_emissions :
    (gopher_feed_all ⟨'1', "u".toList, false, 0, []⟩
        [c1_bad ++ c1_good, "x".toList]).1 =
      gopher_head_emissions "u".toList ++
        ["<a href=\"gopher://h/0/b\"><span class=\"text\">B</span></a><br/>\n".toList] := by
  have hchunk1 : c1_bad ++ c1_good ≠ [] := by
    rw [c1_bad]
    simp only [List.cons_append]
    exact List.cons_ne_nil _ _
  have h1 := fetch_data_chunk '1' "u".toList false [] (c1_bad ++ c1_good) hchunk1
  simp only [List.length_nil] at h1
  simp only [List.nil_append] at h1
  simp only [Bool.false_eq_true] at h1
  simp only [if_false] at h1
  have hx : ("x".toList : List Char) ≠ [] := by decide
  have h2 := fetch_data_chunk '1' "u".toList true
    (c1_good ++ List.replicate c1_bad.length '\x00') "x".toList hx
  simp only [if_true] at h2
  rw [gopher_feed_all]
  dsimp only
  rw [h1]
  dsimp only
  rw [gopher_feed_all]
  dsimp only
  rw [c1_carry1]
  rw [h2]
  rw [gopher_feed_all]
  dsimp only
  rw [c1_run2]
  have hrun1 : (gopher_rows_run 4096 (c1_bad ++ c1_good)).1 = [] := by
    rw [rows_run_fail c1_chunk1_row]
  rw [hrun1]
  simp

/-- Claim C1 as stated is false: the stream `c1_bad ++ c1_good` followed by
one more byte produces different DATA emission sequences depending on the
chunking.  The line `c1_bad` renders to more than 4096 bytes, so its
rendering fails; `gopher_generate_row` then advances past it while
`gopher_fetch_data` keeps the stale byte count, and the carry copy reads
out of bounds (modelled as NUL bytes).  Fed as one call, the run stops at
the failure and emits only the prologue and title; fed as two chunks, the
second call re-parses the corrupted carry and additionally emits the row of
`c1_good`.  The split is a genuine chunking: the chunks are non-empty and
concatenate to the whole stream. -/
theorem C1_counterexample :
    (gopher_feed_all ⟨'1', "u".toList, false, 0, []⟩
        [c1_bad ++ c1_good, "x".toList]).1 ≠
      (gopher_fetch_data ⟨'1', "u".toList, false, 0, []⟩
        ((c1_bad ++ c1_good) ++ "x".toList)).1 ∧
    [c1_bad ++ c1_good, "x".toList].flatten = (c1_bad ++ c1_good) ++ "x".toList ∧
    (c1_bad ++ c1_good) ≠ [] ∧ ("x".toList : List Char) ≠ [] := by
  refine ⟨?_, by simp, ?_, by decide⟩
  · rw [c1_split_emissions, c1_whole_emissions]
    intro hx
    have hlen := congrArg List.length hx
    simp only [List.length_append, List.length_cons, List.length_nil] at hlen
    omega
  · rw [c1_bad]
    simp only [List.cons_append]
    exact List.cons_ne_nil _ _

/-- Witness for the amended C1 theorem: a concrete two-chunk split of a
well-formed menu stream yields the same emissions as the single-call feed. -/
theorem C1_amended_witness :
    (gopher_feed_all ⟨'1', "u".toList, false, 0, []⟩
        ["1a\t/s".toList, "\th\t70\r\nx".toList]).1 =
      (gopher_fetch_data ⟨'1', "u".toList, false, 0, []⟩
        (["1a\t/s".toList, "\th\t70\r\nx".toList]).flatten).1 :=
  C1_amended '1' "u".toList ["1a\t/s".toList, "\th\t70\r\nx".toList]
    (by decide) (by decide) (by decide)
